import Mathlib

/-!
Shallow embedding of the RepairO user-management API's authentication and
account-lifecycle core (models/User.js, models/ServiceProvider.js,
services/authService.js, services/userService.js,
services/serviceProviderService.js, services/emailService.js,
controllers/authController.js, middleware/auth.js).

Modelling conventions:
  * MongoDB documents become the `Account` structure; the two mongoose
    collections (users, service providers) become the two lists of `DB`.
  * Times are natural numbers (milliseconds, as `Date.now()`).
  * bcrypt is modelled abstractly: a digest records the salt and the
    hashed plaintext (`StoredPassword.hashed`), a raw string field value
    that was never hashed is `StoredPassword.plain`; `bcrypt.compare`
    succeeds exactly on the hashed plaintext.  Distinct constructors model
    the fact that a bcrypt digest string never coincides with the
    plaintext it hashes.
  * `crypto.randomBytes` (reset tokens), mongo ObjectIds and bcrypt salts
    are environment inputs, passed as explicit parameters.
  * Thrown JS `Error`s become `Except String`, carrying the exact message
    string; controllers match on messages with a substring test, as the
    JS does with `String.prototype.includes`.
  * Mutating operations return the `Except` result together with the
    post-state of the database, which is threaded even when an error is
    thrown (the store has no rollback).
  * Emails reaching the services have already passed through the
    express-validator middleware, which trims and lower-cases them; they
    are modelled as plain strings compared for equality, matching the
    mongoose queries on the normalized values.
-/

/-- Value stored in a document's `password` field: either a never-hashed
raw string, or a bcrypt digest of `pw` produced with salt `salt`. -/
inductive StoredPassword where
  | plain (pw : String)
  | hashed (salt : Nat) (pw : String)
deriving DecidableEq, Repr

namespace Bcrypt

/-- `bcrypt.hash(pw, salt)` on a raw string. -/
def hash (salt : Nat) (pw : String) : StoredPassword := .hashed salt pw

/-- The digest string a stored password denotes (used when a digest is
itself fed back into `bcrypt.hash`, which never happens in these flows). -/
def storedText : StoredPassword → String
  | .plain pw => pw
  | .hashed salt pw => "$2b$10$" ++ Nat.repr salt ++ "$" ++ pw

/-- `bcrypt.compare(candidate, stored)`: true exactly when `stored` is a
digest of `candidate`; comparing against a non-digest string fails. -/
def compare (candidate : String) (stored : StoredPassword) : Bool :=
  match stored with
  | .plain _ => false
  | .hashed _ pw => candidate == pw

end Bcrypt

/-- A document of either collection.  Regular users carry `expertise = []`
and `businessBio = ""` (those paths are not in the user schema and are
dropped by mongoose strict mode). -/
structure Account where
  id : Nat
  firstName : String
  lastName : String
  email : String
  password : StoredPassword
  phoneNumber : String
  address : String
  postcode : String
  expertise : List String
  businessBio : String
  resetPasswordToken : Option String
  resetPasswordExpires : Option Nat
  createdAt : Nat
  updatedAt : Nat
deriving DecidableEq, Repr

/-- The document store: the `users` and `serviceproviders` collections. -/
structure DB where
  users : List Account
  providers : List Account
deriving DecidableEq, Repr

namespace DB

def empty : DB := ⟨[], []⟩

/-- `User.findOne({ email })`. -/
def findUserByEmail (db : DB) (email : String) : Option Account :=
  db.users.find? (fun a => a.email == email)

/-- `ServiceProvider.findOne({ email })`. -/
def findProviderByEmail (db : DB) (email : String) : Option Account :=
  db.providers.find? (fun a => a.email == email)

/-- `User.findById(id)`. -/
def findUserById (db : DB) (id : Nat) : Option Account :=
  db.users.find? (fun a => a.id == id)

/-- `ServiceProvider.findById(id)`. -/
def findProviderById (db : DB) (id : Nat) : Option Account :=
  db.providers.find? (fun a => a.id == id)

/-- Persist a modified user document back into its collection (the write
`document.save()` performs, keyed by `_id`). -/
def saveUser (db : DB) (a : Account) : DB :=
  { db with users := db.users.map (fun u => if u.id == a.id then a else u) }

/-- Persist a modified service-provider document back. -/
def saveProvider (db : DB) (a : Account) : DB :=
  { db with providers := db.providers.map (fun u => if u.id == a.id then a else u) }

/-- Collection selected by a `userType` string, as `resetPassword` does:
anything other than `"serviceProvider"` selects the users collection. -/
def kindColl (db : DB) (userType : String) : List Account :=
  if userType == "serviceProvider" then db.providers else db.users

/-- Persist into the collection selected by a `userType` string. -/
def kindSave (db : DB) (userType : String) (a : Account) : DB :=
  if userType == "serviceProvider" then db.saveProvider a else db.saveUser a

end DB

/-- The `pre('save')` hook shared by both schemas: re-hash the password
with a fresh salt exactly when the field was modified in this operation
(`this.isModified('password')`); otherwise leave it untouched. -/
def preSaveHashPassword (p : StoredPassword) (pwModified : Bool) (salt : Nat) : StoredPassword :=
  if pwModified then Bcrypt.hash salt (Bcrypt.storedText p) else p

/-- Registration payload: the documented fields of
`AuthService.registerUser` / `AuthService.registerServiceProvider`
(`expertise`/`businessBio` are used only by the provider variant), plus
the two reset-token schema paths.  The controllers pass `req.body`
straight into `new User(...)`/`new ServiceProvider(...)` and the
validation middleware never strips unknown keys, so a registration body
may also carry `resetPasswordToken`/`resetPasswordExpires`, which
mongoose assigns (they are schema paths); `none` models an absent key,
in which case the schema default `null` applies. -/
structure RegisterData where
  firstName : String
  lastName : String
  email : String
  password : String
  phoneNumber : String
  address : String
  postcode : String
  expertise : List String
  businessBio : String
  resetPasswordToken : Option String
  resetPasswordExpires : Option Nat
deriving DecidableEq, Repr

/-- `new User(userData)` followed by `save()`: a fresh document whose
just-set password is hashed by the pre-save hook, reset-token fields
taken from the body when present (mass assignment of schema paths) and
otherwise at their schema defaults (`null`), timestamps set. -/
def newUserDoc (d : RegisterData) (id salt now : Nat) : Account :=
  { id := id
    firstName := d.firstName
    lastName := d.lastName
    email := d.email
    password := preSaveHashPassword (.plain d.password) true salt
    phoneNumber := d.phoneNumber
    address := d.address
    postcode := d.postcode
    expertise := []
    businessBio := ""
    resetPasswordToken := d.resetPasswordToken
    resetPasswordExpires := d.resetPasswordExpires
    createdAt := now
    updatedAt := now }

/-- `new ServiceProvider(providerData)` followed by `save()`. -/
def newProviderDoc (d : RegisterData) (id salt now : Nat) : Account :=
  { newUserDoc d id salt now with
    expertise := d.expertise
    businessBio := d.businessBio }

namespace EmailService

/-- `sendEmail`: the transport either delivers or throws; delivery is an
environment input. -/
def sendEmail (delivered : Bool) : Except String String :=
  if delivered then .ok "Email sent successfully" else .error "Failed to send email"

/-- `sendWelcomeEmail`: a transport failure is caught and converted into a
success result, so the caller never sees it. -/
def sendWelcomeEmail (delivered : Bool) : Except String String :=
  match sendEmail delivered with
  | .ok m => .ok m
  | .error _ => .ok "User registered successfully (email service temporarily unavailable)"

/-- `sendForgotPasswordEmail`: a transport failure is re-thrown as a fatal
error. -/
def sendForgotPasswordEmail (delivered : Bool) : Except String String :=
  match sendEmail delivered with
  | .ok m => .ok m
  | .error _ => .error "Email service unavailable. Please contact support for password reset."

end EmailService

/-- A signed JWT; only the embedded user id matters to these flows. -/
structure Token where
  userId : Nat
deriving DecidableEq, Repr

/-- Result of a successful registration. -/
structure RegisterResult where
  message : String
  accountId : Nat
deriving DecidableEq, Repr

namespace AuthService

/-- `AuthService.generateToken(userId)`. -/
def generateToken (userId : Nat) : Token := ⟨userId⟩

/-- `AuthService.registerUser(userData)`.  Parameters beyond the payload
are environment inputs: the fresh ObjectId, the bcrypt salt, the clock,
and whether the welcome email would be delivered.  A welcome-email failure
is swallowed twice (inside `sendWelcomeEmail` and by the inner
`try/catch`), so it never affects the result. -/
def registerUser (db : DB) (d : RegisterData) (id salt now : Nat)
    (emailDelivered : Bool) : Except String RegisterResult × DB :=
  match db.findUserByEmail d.email with
  | some _ => (.error "User with this email already exists", db)
  | none =>
      let user := newUserDoc d id salt now
      let db' : DB := { db with users := db.users ++ [user] }
      let _ := EmailService.sendWelcomeEmail emailDelivered
      (.ok ⟨"User registered successfully", user.id⟩, db')

/-- `AuthService.registerServiceProvider(providerData)`. -/
def registerServiceProvider (db : DB) (d : RegisterData) (id salt now : Nat)
    (emailDelivered : Bool) : Except String RegisterResult × DB :=
  match db.findProviderByEmail d.email with
  | some _ => (.error "Service provider with this email already exists", db)
  | none =>
      let prov := newProviderDoc d id salt now
      let db' : DB := { db with providers := db.providers ++ [prov] }
      let _ := EmailService.sendWelcomeEmail emailDelivered
      (.ok ⟨"Service provider registered successfully", prov.id⟩, db')

/-- The two-collection probe shared by `login` and `forgotPassword`:
try the users collection first, then service providers, tagging the match
with the `userType` string. -/
def resolveByEmail (db : DB) (email : String) : Option (Account × String) :=
  match db.findUserByEmail email with
  | some u => some (u, "user")
  | none =>
      match db.findProviderByEmail email with
      | some p => some (p, "serviceProvider")
      | none => none

/-- Payload of a successful login: token, `userType`, and the account
document (serialized later by the controller layer via `toJSON`). -/
structure LoginOk where
  token : Token
  userType : String
  account : Account
deriving DecidableEq, Repr

/-- `AuthService.login(email, password)`. -/
def login (db : DB) (email password : String) : Except String LoginOk :=
  match resolveByEmail db email with
  | none => .error "Invalid email or password"
  | some (u, userType) =>
      if Bcrypt.compare password u.password then
        .ok ⟨generateToken u.id, userType, u⟩
      else
        .error "Invalid email or password"

/-- The document `forgotPassword` persists: the resolved account with the
fresh token and its one-hour expiry stored; the password field is
untouched, so the pre-save hook does not re-hash it. -/
def forgotDoc (u : Account) (resetToken : String) (now : Nat) : Account :=
  { u with
    resetPasswordToken := some resetToken
    resetPasswordExpires := some (now + 60 * 60 * 1000)
    password := preSaveHashPassword u.password false 0
    updatedAt := now }

/-- `AuthService.forgotPassword(email)`: resolve the account, store a
fresh reset token with a one-hour expiry, persist, then attempt the reset
email; an email failure propagates but the persisted state remains. -/
def forgotPassword (db : DB) (email resetToken : String) (now : Nat)
    (emailDelivered : Bool) : Except String String × DB :=
  match resolveByEmail db email with
  | none => (.error "No account found with this email address", db)
  | some (u, userType) =>
      let db' := db.kindSave userType (forgotDoc u resetToken now)
      match EmailService.sendForgotPasswordEmail emailDelivered with
      | .ok _ => (.ok "Password reset email sent successfully", db')
      | .error e => (.error e, db')

/-- The mongoose query of `resetPassword`:
`{ resetPasswordToken: token, resetPasswordExpires: { $gt: Date.now() } }`. -/
def resetQueryMatch (token : String) (now : Nat) (a : Account) : Bool :=
  a.resetPasswordToken == some token &&
    match a.resetPasswordExpires with
    | some e => now < e
    | none => false

/-- The document `resetPassword` persists: the new password, just set and
therefore hashed by the pre-save hook, with both reset fields cleared. -/
def resetDoc (u : Account) (newPassword : String) (salt now : Nat) : Account :=
  { u with
    password := preSaveHashPassword (.plain newPassword) true salt
    resetPasswordToken := none
    resetPasswordExpires := none
    updatedAt := now }

/-- `AuthService.resetPassword(token, newPassword, userType)`: pick the
collection named by `userType` (anything other than `"serviceProvider"`
selects users), find a document with the token still unexpired, set the
new password (hashed by the pre-save hook, the field having been
modified), clear both reset fields, persist. -/
def resetPassword (db : DB) (token newPassword userType : String)
    (salt now : Nat) : Except String String × DB :=
  match (db.kindColl userType).find? (resetQueryMatch token now) with
  | none => (.error "Invalid or expired reset token", db)
  | some u =>
      (.ok "Password reset successfully", db.kindSave userType (resetDoc u newPassword salt now))

end AuthService

/-- Profile-update payload of `UserService.updateUser` and
`ServiceProviderService.updateServiceProvider`: every field optional
(`none` models an absent body key).  The controllers pass `req.body`
verbatim into `findByIdAndUpdate({ $set: ... })` and the validation
middleware never strips unknown keys, so besides the documented profile
fields the body may carry any schema path, in particular `password`,
`resetPasswordToken` and `resetPasswordExpires`.
`expertise`/`businessBio` are meaningful only for providers (for users
they are not schema paths and mongoose strict mode drops them). -/
structure UpdateData where
  firstName : Option String
  lastName : Option String
  phoneNumber : Option String
  address : Option String
  postcode : Option String
  expertise : Option (List String)
  businessBio : Option (String)
  password : Option String
  resetPasswordToken : Option String
  resetPasswordExpires : Option Nat
deriving DecidableEq, Repr

/-- The update payload that touches no field at all. -/
def UpdateData.none : UpdateData :=
  ⟨.none, .none, .none, .none, .none, .none, .none, .none, .none, .none⟩

/-- Effect of `findByIdAndUpdate(id, { $set: updateData })` on a user
document: set exactly the present schema paths, refresh `updatedAt`.
This path bypasses the `pre('save')` hook (mongoose update queries do
not run document save middleware), so a `password` in the payload is
persisted as given, never hashed, and each reset field is written
independently of the other. -/
def applySetUser (a : Account) (u : UpdateData) (now : Nat) : Account :=
  { a with
    firstName := u.firstName.getD a.firstName
    lastName := u.lastName.getD a.lastName
    phoneNumber := u.phoneNumber.getD a.phoneNumber
    address := u.address.getD a.address
    postcode := u.postcode.getD a.postcode
    password := (u.password.map StoredPassword.plain).getD a.password
    resetPasswordToken := (u.resetPasswordToken.map some).getD a.resetPasswordToken
    resetPasswordExpires := (u.resetPasswordExpires.map some).getD a.resetPasswordExpires
    updatedAt := now }

/-- Effect of `$set: updateData` on a service-provider document; same
hook-bypassing behavior as for users. -/
def applySetProvider (a : Account) (u : UpdateData) (now : Nat) : Account :=
  { a with
    firstName := u.firstName.getD a.firstName
    lastName := u.lastName.getD a.lastName
    phoneNumber := u.phoneNumber.getD a.phoneNumber
    address := u.address.getD a.address
    postcode := u.postcode.getD a.postcode
    expertise := u.expertise.getD a.expertise
    businessBio := u.businessBio.getD a.businessBio
    password := (u.password.map StoredPassword.plain).getD a.password
    resetPasswordToken := (u.resetPasswordToken.map some).getD a.resetPasswordToken
    resetPasswordExpires := (u.resetPasswordExpires.map some).getD a.resetPasswordExpires
    updatedAt := now }

namespace UserService

/-- `UserService.getUserById(userId)`. -/
def getUserById (db : DB) (userId : Nat) : Except String Account :=
  match db.findUserById userId with
  | none => .error "User not found"
  | some u => .ok u

/-- `UserService.updateUser(userId, updateData)`: `findByIdAndUpdate`
with `$set`, returning the updated document (`new: true`). -/
def updateUser (db : DB) (userId : Nat) (u : UpdateData) (now : Nat) :
    Except String Account × DB :=
  match db.findUserById userId with
  | none => (.error "User not found", db)
  | some a =>
      let a' := applySetUser a u now
      (.ok a', db.saveUser a')

/-- `UserService.deleteUser(userId)`: `findByIdAndDelete`. -/
def deleteUser (db : DB) (userId : Nat) : Except String String × DB :=
  match db.findUserById userId with
  | none => (.error "User not found", db)
  | some _ =>
      (.ok "User deleted successfully",
       { db with users := db.users.filter (fun a => a.id != userId) })

/-- `UserService.getAllUsers()`: every user document, password excluded
by `select('-password')` (serialization below). -/
def getAllUsers (db : DB) : List Account := db.users

end UserService

namespace ServiceProviderService

/-- `ServiceProviderService.getServiceProviderById(providerId)`. -/
def getServiceProviderById (db : DB) (providerId : Nat) : Except String Account :=
  match db.findProviderById providerId with
  | none => .error "Service provider not found"
  | some p => .ok p

/-- `ServiceProviderService.updateServiceProvider(providerId, updateData)`. -/
def updateServiceProvider (db : DB) (providerId : Nat) (u : UpdateData) (now : Nat) :
    Except String Account × DB :=
  match db.findProviderById providerId with
  | none => (.error "Service provider not found", db)
  | some a =>
      let a' := applySetProvider a u now
      (.ok a', db.saveProvider a')

/-- `ServiceProviderService.deleteServiceProvider(providerId)`. -/
def deleteServiceProvider (db : DB) (providerId : Nat) : Except String String × DB :=
  match db.findProviderById providerId with
  | none => (.error "Service provider not found", db)
  | some _ =>
      (.ok "Service provider deleted successfully",
       { db with providers := db.providers.filter (fun a => a.id != providerId) })

/-- `ServiceProviderService.getServiceProvidersByExpertise(expertise)`:
`find({ expertise: { $in: [expertise] } })`, password excluded. -/
def getServiceProvidersByExpertise (db : DB) (tag : String) : List Account :=
  db.providers.filter (fun a => a.expertise.contains tag)

/-- `ServiceProviderService.getAllServiceProviders()`. -/
def getAllServiceProviders (db : DB) : List Account := db.providers

end ServiceProviderService

/-- Primitive JSON values occurring in this API's payloads. -/
inductive JPrim where
  | str (s : String)
  | num (n : Nat)
  | nul
  | strs (l : List String)
deriving DecidableEq, Repr

/-- A serialized document: an association list of fields. -/
abbrev JFields := List (String × JPrim)

/-- A JSON value one level up: a primitive, an object, or an array of
objects (all the response bodies of this API are of this shape). -/
inductive JVal where
  | prim (p : JPrim)
  | obj (fs : JFields)
  | objs (l : List JFields)
deriving DecidableEq, Repr

/-- A JSON response body. -/
abbrev JBody := List (String × JVal)

/-- An optional string field serializes as the string or as JSON null. -/
def joptStr : Option String → JPrim
  | Option.none => .nul
  | some s => .str s

/-- An optional date field serializes as the timestamp or as JSON null. -/
def joptNum : Option Nat → JPrim
  | Option.none => .nul
  | some n => .num n

/-- The JWT string embedded in a login response. -/
def Token.text (t : Token) : String := "jwt." ++ Nat.repr t.userId

namespace Account

/-- `document.toObject()` for a user document: every schema field,
password included. -/
def userToObject (a : Account) : JFields :=
  [("_id", .num a.id),
   ("firstName", .str a.firstName),
   ("lastName", .str a.lastName),
   ("email", .str a.email),
   ("password", .str (Bcrypt.storedText a.password)),
   ("phoneNumber", .str a.phoneNumber),
   ("address", .str a.address),
   ("postcode", .str a.postcode),
   ("resetPasswordToken", joptStr a.resetPasswordToken),
   ("resetPasswordExpires", joptNum a.resetPasswordExpires),
   ("createdAt", .num a.createdAt),
   ("updatedAt", .num a.updatedAt)]

/-- `userSchema.methods.toJSON`: `toObject()` with the password key
deleted. -/
def userToJSON (a : Account) : JFields :=
  (userToObject a).filter (fun kv => kv.fst != "password")

/-- `document.toObject()` for a service-provider document. -/
def providerToObject (a : Account) : JFields :=
  [("_id", .num a.id),
   ("firstName", .str a.firstName),
   ("lastName", .str a.lastName),
   ("email", .str a.email),
   ("password", .str (Bcrypt.storedText a.password)),
   ("phoneNumber", .str a.phoneNumber),
   ("address", .str a.address),
   ("postcode", .str a.postcode),
   ("expertise", .strs a.expertise),
   ("businessBio", .str a.businessBio),
   ("resetPasswordToken", joptStr a.resetPasswordToken),
   ("resetPasswordExpires", joptNum a.resetPasswordExpires),
   ("createdAt", .num a.createdAt),
   ("updatedAt", .num a.updatedAt)]

/-- `serviceProviderSchema.methods.toJSON`. -/
def providerToJSON (a : Account) : JFields :=
  (providerToObject a).filter (fun kv => kv.fst != "password")

/-- Serialization dispatched on the resolved kind tag, as the login
response does with `user.toJSON()`. -/
def toJSONByKind (a : Account) (userType : String) : JFields :=
  if userType == "serviceProvider" then providerToJSON a else userToJSON a

end Account

/-- Does `pat` occur at the very start of `s`? -/
def charsStartWith : List Char → List Char → Bool
  | [], _ => true
  | _ :: _, [] => false
  | c :: cs, d :: ds => c == d && charsStartWith cs ds

/-- Does `pat` occur somewhere in `s`? -/
def charsIncludes (pat : List Char) : List Char → Bool
  | [] => pat.isEmpty
  | c :: rest => charsStartWith pat (c :: rest) || charsIncludes pat rest

/-- JS `String.prototype.includes`: `pat` occurs as a substring of `s`. -/
def strIncludes (s pat : String) : Bool :=
  charsIncludes pat.data s.data

/-- An HTTP response: status code and JSON body. -/
abbrev HttpResponse := Nat × JBody

/-- A body of the shape `{ message }`. -/
def messageBody (m : String) : JBody := [("message", .prim (.str m))]

namespace AuthController

/-- `AuthController.registerUser`: 201 on success, 400 when the service
error message includes `already exists`, 500 otherwise. -/
def registerUserHttp (db : DB) (d : RegisterData) (id salt now : Nat)
    (emailDelivered : Bool) : HttpResponse × DB :=
  match AuthService.registerUser db d id salt now emailDelivered with
  | (.ok r, db') =>
      ((201, [("message", .prim (.str r.message)),
              ("userId", .prim (.num r.accountId))]), db')
  | (.error m, db') =>
      if strIncludes m "already exists" then ((400, messageBody m), db')
      else ((500, messageBody "Error registering user"), db')

/-- `AuthController.registerServiceProvider`. -/
def registerServiceProviderHttp (db : DB) (d : RegisterData) (id salt now : Nat)
    (emailDelivered : Bool) : HttpResponse × DB :=
  match AuthService.registerServiceProvider db d id salt now emailDelivered with
  | (.ok r, db') =>
      ((201, [("message", .prim (.str r.message)),
              ("serviceProviderId", .prim (.num r.accountId))]), db')
  | (.error m, db') =>
      if strIncludes m "already exists" then ((400, messageBody m), db')
      else ((500, messageBody "Error registering service provider"), db')

/-- `AuthController.login`: 200 with `{ token, userType, [userType]:
account.toJSON() }` on success, 401 when the message includes `Invalid
email or password`, 500 otherwise. -/
def loginHttp (db : DB) (email password : String) : HttpResponse :=
  match AuthService.login db email password with
  | .ok r =>
      (200, [("token", .prim (.str r.token.text)),
             ("userType", .prim (.str r.userType)),
             (r.userType, .obj (r.account.toJSONByKind r.userType))])
  | .error m =>
      if strIncludes m "Invalid email or password" then (401, messageBody m)
      else (500, messageBody "Error during login")

/-- `AuthController.forgotPassword`: 200 on success, 404 when the message
includes `No account found`, 500 otherwise. -/
def forgotPasswordHttp (db : DB) (email resetToken : String) (now : Nat)
    (emailDelivered : Bool) : HttpResponse × DB :=
  match AuthService.forgotPassword db email resetToken now emailDelivered with
  | (.ok m, db') => ((200, messageBody m), db')
  | (.error m, db') =>
      if strIncludes m "No account found" then ((404, messageBody m), db')
      else ((500, messageBody "Error sending forgot password email"), db')

/-- `AuthController.resetPassword`: 200 on success, 400 when the message
includes `Invalid or expired`, 500 otherwise. -/
def resetPasswordHttp (db : DB) (token newPassword userType : String)
    (salt now : Nat) : HttpResponse × DB :=
  match AuthService.resetPassword db token newPassword userType salt now with
  | (.ok m, db') => ((200, messageBody m), db')
  | (.error m, db') =>
      if strIncludes m "Invalid or expired" then ((400, messageBody m), db')
      else ((500, messageBody "Error resetting password"), db')

end AuthController

/-- The `auth` middleware's account lookup for a verified token: probe
the users collection first, then service providers, 401 when neither
holds the id. -/
def authMiddlewareResolve (db : DB) (t : Token) : Except String (Account × String) :=
  match db.findUserById t.userId with
  | some u => .ok (u, "user")
  | none =>
      match db.findProviderById t.userId with
      | some p => .ok (p, "serviceProvider")
      | none => .error "Invalid token. User not found."

namespace UserController

/-- `UserController.getUserProfile` / `getUserById`: `{ user }`. -/
def getUserHttp (db : DB) (userId : Nat) : HttpResponse :=
  match UserService.getUserById db userId with
  | .ok u => (200, [("user", .obj u.userToJSON)])
  | .error m => (404, messageBody m)

/-- `UserController.updateUserProfile`. -/
def updateUserProfileHttp (db : DB) (userId : Nat) (u : UpdateData) (now : Nat) :
    HttpResponse × DB :=
  match UserService.updateUser db userId u now with
  | (.ok a, db') =>
      ((200, [("message", .prim (.str "User profile updated successfully")),
              ("user", .obj a.userToJSON)]), db')
  | (.error m, db') => ((404, messageBody m), db')

/-- `UserController.getAllUsers`: `{ users }`, password stripped by
`select('-password')`. -/
def getAllUsersHttp (db : DB) : HttpResponse :=
  (200, [("users", .objs ((UserService.getAllUsers db).map Account.userToJSON))])

end UserController

namespace ServiceProviderController

/-- `ServiceProviderController.getServiceProviderProfile` /
`getServiceProviderById`. -/
def getServiceProviderHttp (db : DB) (providerId : Nat) : HttpResponse :=
  match ServiceProviderService.getServiceProviderById db providerId with
  | .ok p => (200, [("serviceProvider", .obj p.providerToJSON)])
  | .error m => (404, messageBody m)

/-- `ServiceProviderController.updateServiceProviderProfile`. -/
def updateServiceProviderProfileHttp (db : DB) (providerId : Nat) (u : UpdateData)
    (now : Nat) : HttpResponse × DB :=
  match ServiceProviderService.updateServiceProvider db providerId u now with
  | (.ok a, db') =>
      ((200, [("message", .prim (.str "Service provider profile updated successfully")),
              ("serviceProvider", .obj a.providerToJSON)]), db')
  | (.error m, db') => ((404, messageBody m), db')

/-- `ServiceProviderController.getAllServiceProviders`. -/
def getAllServiceProvidersHttp (db : DB) : HttpResponse :=
  (200, [("serviceProviders",
          .objs ((ServiceProviderService.getAllServiceProviders db).map Account.providerToJSON))])

/-- `ServiceProviderController.getServiceProvidersByExpertise`. -/
def getByExpertiseHttp (db : DB) (tag : String) : HttpResponse :=
  (200, [("serviceProviders",
          .objs ((ServiceProviderService.getServiceProvidersByExpertise db tag).map
            Account.providerToJSON))])

end ServiceProviderController

/-- One API operation that can change the store: the state transitions of
the system.  Read-only operations (login, profile reads, listings) do not
appear since they return the store unchanged. -/
inductive DBStep : DB → DB → Prop where
  | regUser (db : DB) (d : RegisterData) (id salt now : Nat) (em : Bool) :
      DBStep db (AuthService.registerUser db d id salt now em).2
  | regProvider (db : DB) (d : RegisterData) (id salt now : Nat) (em : Bool) :
      DBStep db (AuthService.registerServiceProvider db d id salt now em).2
  | forgot (db : DB) (email tok : String) (now : Nat) (em : Bool) :
      DBStep db (AuthService.forgotPassword db email tok now em).2
  | reset (db : DB) (tok pw kind : String) (salt now : Nat) :
      DBStep db (AuthService.resetPassword db tok pw kind salt now).2
  | updUser (db : DB) (id : Nat) (u : UpdateData) (now : Nat) :
      DBStep db (UserService.updateUser db id u now).2
  | updProvider (db : DB) (id : Nat) (u : UpdateData) (now : Nat) :
      DBStep db (ServiceProviderService.updateServiceProvider db id u now).2
  | delUser (db : DB) (id : Nat) :
      DBStep db (UserService.deleteUser db id).2
  | delProvider (db : DB) (id : Nat) :
      DBStep db (ServiceProviderService.deleteServiceProvider db id).2

/-- A store state reachable from the empty store by API operations. -/
def DBReachable (db : DB) : Prop := Relation.ReflTransGen DBStep DB.empty db

/-- The reset-token pairing invariant on one document: the token and its
expiry are both unset or both set. -/
def resetFieldsPaired (a : Account) : Prop :=
  a.resetPasswordToken.isSome = a.resetPasswordExpires.isSome

instance (a : Account) : Decidable (resetFieldsPaired a) := by
  unfold resetFieldsPaired
  infer_instance

/-- The invariant over the whole store. -/
def dbResetFieldsPaired (db : DB) : Prop :=
  (∀ a ∈ db.users, resetFieldsPaired a) ∧ (∀ a ∈ db.providers, resetFieldsPaired a)

instance (db : DB) : Decidable (dbResetFieldsPaired db) := by
  unfold dbResetFieldsPaired
  infer_instance

/-- No field of this serialized object is named `password`. -/
def passwordFree (fs : JFields) : Bool := fs.all (fun kv => kv.fst != "password")

/-- No object contained in this JSON value has a `password` field. -/
def jvalPasswordFree : JVal → Bool
  | .prim _ => true
  | .obj fs => passwordFree fs
  | .objs l => l.all passwordFree

/-- No object contained in this response body has a `password` field. -/
def bodyPasswordFree (b : JBody) : Bool := b.all (fun kv => jvalPasswordFree kv.snd)

theorem userToJSON_passwordFree (a : Account) : passwordFree a.userToJSON = true := rfl

theorem providerToJSON_passwordFree (a : Account) : passwordFree a.providerToJSON = true := rfl

theorem toJSONByKind_passwordFree (a : Account) (k : String) :
    passwordFree (a.toJSONByKind k) = true := by
  unfold Account.toJSONByKind
  split
  · exact providerToJSON_passwordFree a
  · exact userToJSON_passwordFree a

/-- Claim C6: for every endpoint that returns an account object (login,
get and update profile, admin fetch by id, list all, list by expertise),
for both regular users and service providers, the serialized JSON
response never contains a `password` field. -/
theorem account_responses_never_contain_password (db : DB)
    (email password tag : String) (id : Nat) (u : UpdateData) (now : Nat) :
    bodyPasswordFree (AuthController.loginHttp db email password).2 = true ∧
    bodyPasswordFree (UserController.getUserHttp db id).2 = true ∧
    bodyPasswordFree (UserController.updateUserProfileHttp db id u now).1.2 = true ∧
    bodyPasswordFree (UserController.getAllUsersHttp db).2 = true ∧
    bodyPasswordFree (ServiceProviderController.getServiceProviderHttp db id).2 = true ∧
    bodyPasswordFree (ServiceProviderController.updateServiceProviderProfileHttp db id u now).1.2 = true ∧
    bodyPasswordFree (ServiceProviderController.getAllServiceProvidersHttp db).2 = true ∧
    bodyPasswordFree (ServiceProviderController.getByExpertiseHttp db tag).2 = true := by
  refine ⟨?_, ?_, ?_, ?_, ?_, ?_, ?_, ?_⟩
  · cases h : AuthService.login db email password with
    | ok r =>
        simp [AuthController.loginHttp, h, bodyPasswordFree, jvalPasswordFree,
          toJSONByKind_passwordFree]
    | error m =>
        simp only [AuthController.loginHttp, h]
        split <;> simp [bodyPasswordFree, jvalPasswordFree, messageBody]
  · cases h : UserService.getUserById db id with
    | ok a =>
        simp [UserController.getUserHttp, h, bodyPasswordFree, jvalPasswordFree,
          userToJSON_passwordFree]
    | error m =>
        simp [UserController.getUserHttp, h, bodyPasswordFree, jvalPasswordFree, messageBody]
  · rcases h : UserService.updateUser db id u now with ⟨r, db'⟩
    cases r with
    | ok a =>
        simp [UserController.updateUserProfileHttp, h, bodyPasswordFree, jvalPasswordFree,
          userToJSON_passwordFree]
    | error m =>
        simp [UserController.updateUserProfileHttp, h, bodyPasswordFree, jvalPasswordFree,
          messageBody]
  · simp [UserController.getAllUsersHttp, bodyPasswordFree, jvalPasswordFree,
      userToJSON_passwordFree]
  · cases h : ServiceProviderService.getServiceProviderById db id with
    | ok a =>
        simp [ServiceProviderController.getServiceProviderHttp, h, bodyPasswordFree,
          jvalPasswordFree, providerToJSON_passwordFree]
    | error m =>
        simp [ServiceProviderController.getServiceProviderHttp, h, bodyPasswordFree,
          jvalPasswordFree, messageBody]
  · rcases h : ServiceProviderService.updateServiceProvider db id u now with ⟨r, db'⟩
    cases r with
    | ok a =>
        simp [ServiceProviderController.updateServiceProviderProfileHttp, h, bodyPasswordFree,
          jvalPasswordFree, providerToJSON_passwordFree]
    | error m =>
        simp [ServiceProviderController.updateServiceProviderProfileHttp, h, bodyPasswordFree,
          jvalPasswordFree, messageBody]
  · simp [ServiceProviderController.getAllServiceProvidersHttp, bodyPasswordFree,
      jvalPasswordFree, providerToJSON_passwordFree]
  · simp [ServiceProviderController.getByExpertiseHttp, bodyPasswordFree, jvalPasswordFree,
      providerToJSON_passwordFree]

/-- A sample stored regular-user document, used to instantiate theorems
on concrete inputs. -/
def accW : Account :=
  { id := 1
    firstName := "Ada"
    lastName := "Smith"
    email := "a@x.com"
    password := Bcrypt.hash 7 "secret1"
    phoneNumber := "0700"
    address := "1 High St"
    postcode := "AB1 2CD"
    expertise := []
    businessBio := ""
    resetPasswordToken := none
    resetPasswordExpires := none
    createdAt := 0
    updatedAt := 0 }

/-- A sample stored service-provider document sharing `accW`'s email and
id, for the tie-break scenarios. -/
def provW : Account :=
  { accW with
    id := 1
    expertise := ["Plumbing"]
    businessBio := "Pipes fixed" }

/-- A store holding just the sample user. -/
def dbW : DB := ⟨[accW], []⟩

/-- A store holding the sample user and the colliding provider. -/
def dbBoth : DB := ⟨[accW], [provW]⟩

/-- A store holding only the colliding provider. -/
def dbProvOnly : DB := ⟨[], [provW]⟩

/-- A sample registration payload with an email unknown to `dbW`. -/
def regW : RegisterData :=
  { firstName := "Bob"
    lastName := "Jones"
    email := "b@x.com"
    password := "secret9"
    phoneNumber := "0711"
    address := "2 Low St"
    postcode := "EF3 4GH"
    expertise := ["Electrical"]
    businessBio := "Rewiring"
    resetPasswordToken := none
    resetPasswordExpires := none }

/-- Claim C2: a login with an email matching no account in either
collection and a login with a matching email but a password whose bcrypt
verification fails produce the same service-level error, the same HTTP
status 401, and the same message, with no distinguishing signal. -/
theorem login_failures_indistinguishable (db : DB) (e1 p1 e2 p2 : String)
    (a : Account) (k : String)
    (h1 : AuthService.resolveByEmail db e1 = none)
    (h2 : AuthService.resolveByEmail db e2 = some (a, k))
    (h3 : Bcrypt.compare p2 a.password = false) :
    AuthService.login db e1 p1 = AuthService.login db e2 p2 ∧
    AuthController.loginHttp db e1 p1 = AuthController.loginHttp db e2 p2 ∧
    AuthController.loginHttp db e1 p1 = (401, messageBody "Invalid email or password") := by
  have l1 : AuthService.login db e1 p1 = .error "Invalid email or password" := by
    simp [AuthService.login, h1]
  have l2 : AuthService.login db e2 p2 = .error "Invalid email or password" := by
    simp [AuthService.login, h2, h3]
  have hs : strIncludes "Invalid email or password" "Invalid email or password" = true := by
    decide
  refine ⟨l1.trans l2.symm, ?_, ?_⟩ <;>
    simp [AuthController.loginHttp, l1, l2, hs]

theorem login_failures_indistinguishable_witness :
    AuthService.login dbW "nobody@x.com" "secret1" = AuthService.login dbW "a@x.com" "wrong" ∧
    AuthController.loginHttp dbW "nobody@x.com" "secret1" =
      AuthController.loginHttp dbW "a@x.com" "wrong" ∧
    AuthController.loginHttp dbW "nobody@x.com" "secret1" =
      (401, messageBody "Invalid email or password") :=
  login_failures_indistinguishable dbW "nobody@x.com" "secret1" "a@x.com" "wrong" accW "user"
    (by decide) (by decide) (by decide)

theorem kindColl_kindSave (db : DB) (k : String) (x : Account) :
    (db.kindSave k x).kindColl k =
      (db.kindColl k).map (fun y => if y.id == x.id then x else y) := by
  cases hk : (k == "serviceProvider") <;>
    simp [DB.kindSave, DB.kindColl, DB.saveUser, DB.saveProvider, hk]

/-- A successful two-collection probe returns a member of the collection
named by the returned kind tag, holding the probed email. -/
theorem resolveByEmail_mem (db : DB) (e : String) (a : Account) (k : String)
    (h : AuthService.resolveByEmail db e = some (a, k)) :
    a ∈ db.kindColl k ∧ a.email = e ∧ (k = "user" ∨ k = "serviceProvider") := by
  unfold AuthService.resolveByEmail at h
  cases hu : db.findUserByEmail e with
  | some u =>
      rw [hu] at h
      obtain ⟨rfl, rfl⟩ : u = a ∧ "user" = k := by
        constructor <;> (injection h with h'; injection h')
      refine ⟨?_, ?_, Or.inl rfl⟩
      · simpa [DB.kindColl] using List.mem_of_find?_eq_some hu
      · have := List.find?_some hu
        simpa using this
  | none =>
      rw [hu] at h
      cases hp : db.findProviderByEmail e with
      | some p =>
          rw [hp] at h
          obtain ⟨rfl, rfl⟩ : p = a ∧ "serviceProvider" = k := by
            constructor <;> (injection h with h'; injection h')
          refine ⟨?_, ?_, Or.inr rfl⟩
          · simpa [DB.kindColl] using List.mem_of_find?_eq_some hp
          · have := List.find?_some hp
            simpa using this
      | none =>
          rw [hp] at h
          exact absurd h (by simp)

/-- Claim C8: a welcome-notification failure never fails a registration
(the result, including the new account id, is identical to the delivered
case), while a reset-notification failure on ForgotPassword is surfaced
to the caller as a fatal error (HTTP 500), not swallowed. -/
theorem welcome_email_swallowed_reset_email_fatal (db db2 : DB) (d : RegisterData)
    (id salt now : Nat) (e tok : String) (t : Nat) (a : Account) (k : String)
    (hd : db.findUserByEmail d.email = none)
    (hq : db.findProviderByEmail d.email = none)
    (ha : AuthService.resolveByEmail db2 e = some (a, k)) :
    (AuthService.registerUser db d id salt now false).1 =
      .ok ⟨"User registered successfully", id⟩ ∧
    AuthService.registerUser db d id salt now false =
      AuthService.registerUser db d id salt now true ∧
    (AuthService.registerServiceProvider db d id salt now false).1 =
      .ok ⟨"Service provider registered successfully", id⟩ ∧
    AuthService.registerServiceProvider db d id salt now false =
      AuthService.registerServiceProvider db d id salt now true ∧
    (AuthService.forgotPassword db2 e tok t false).1 =
      .error "Email service unavailable. Please contact support for password reset." ∧
    (AuthController.forgotPasswordHttp db2 e tok t false).1 =
      (500, messageBody "Error sending forgot password email") := by
  have hinc : strIncludes "Email service unavailable. Please contact support for password reset."
      "No account found" = false := by decide
  refine ⟨?_, ?_, ?_, ?_, ?_, ?_⟩
  · simp [AuthService.registerUser, hd, newUserDoc]
  · simp [AuthService.registerUser, hd]
  · simp [AuthService.registerServiceProvider, hq, newProviderDoc, newUserDoc]
  · simp [AuthService.registerServiceProvider, hq]
  · simp [AuthService.forgotPassword, ha, EmailService.sendForgotPasswordEmail,
      EmailService.sendEmail]
  · simp [AuthController.forgotPasswordHttp, AuthService.forgotPassword, ha,
      EmailService.sendForgotPasswordEmail, EmailService.sendEmail, hinc]

theorem welcome_email_swallowed_reset_email_fatal_witness :
    (AuthService.registerUser dbW regW 2 9 50 false).1 =
      .ok ⟨"User registered successfully", 2⟩ ∧
    AuthService.registerUser dbW regW 2 9 50 false =
      AuthService.registerUser dbW regW 2 9 50 true ∧
    (AuthService.registerServiceProvider dbW regW 2 9 50 false).1 =
      .ok ⟨"Service provider registered successfully", 2⟩ ∧
    AuthService.registerServiceProvider dbW regW 2 9 50 false =
      AuthService.registerServiceProvider dbW regW 2 9 50 true ∧
    (AuthService.forgotPassword dbW "a@x.com" "tkn" 50 false).1 =
      .error "Email service unavailable. Please contact support for password reset." ∧
    (AuthController.forgotPasswordHttp dbW "a@x.com" "tkn" 50 false).1 =
      (500, messageBody "Error sending forgot password email") :=
  welcome_email_swallowed_reset_email_fatal dbW dbW regW 2 9 50 "a@x.com" "tkn" 50 accW "user"
    (by decide) (by decide) (by decide)

/-- Claim C10: on ForgotPassword for an existing account, the reset token
and expiry are persisted before the notification is attempted, so when
the notification fails the call returns an error while the store already
holds the new token and expiry (same post-state as the delivered case),
and the resolved account's password is untouched. -/
theorem forgot_password_persists_token_before_email (db : DB) (e tok : String)
    (now : Nat) (a : Account) (k : String)
    (ha : AuthService.resolveByEmail db e = some (a, k)) :
    (AuthService.forgotPassword db e tok now false).1 =
      .error "Email service unavailable. Please contact support for password reset." ∧
    (AuthService.forgotPassword db e tok now false).2 =
      (AuthService.forgotPassword db e tok now true).2 ∧
    ∃ a', a' ∈ ((AuthService.forgotPassword db e tok now false).2).kindColl k ∧
      a'.id = a.id ∧ a'.resetPasswordToken = some tok ∧
      a'.resetPasswordExpires = some (now + 60 * 60 * 1000) ∧
      a'.password = a.password := by
  obtain ⟨hmem, -, -⟩ := resolveByEmail_mem db e a k ha
  refine ⟨?_, ?_, ?_⟩
  · simp [AuthService.forgotPassword, ha, EmailService.sendForgotPasswordEmail,
      EmailService.sendEmail]
  · simp [AuthService.forgotPassword, ha, EmailService.sendForgotPasswordEmail,
      EmailService.sendEmail]
  · refine ⟨AuthService.forgotDoc a tok now, ?_, rfl, rfl, rfl, rfl⟩
    have h2 : (AuthService.forgotPassword db e tok now false).2 =
        db.kindSave k (AuthService.forgotDoc a tok now) := by
      simp [AuthService.forgotPassword, ha, EmailService.sendForgotPasswordEmail,
        EmailService.sendEmail]
    rw [h2, kindColl_kindSave]
    have hmm := List.mem_map_of_mem
      (fun y => if y.id == (AuthService.forgotDoc a tok now).id
        then AuthService.forgotDoc a tok now else y) hmem
    simpa [AuthService.forgotDoc] using hmm

theorem forgot_password_persists_token_before_email_witness :
    (AuthService.forgotPassword dbW "a@x.com" "tkn" 5 false).1 =
      .error "Email service unavailable. Please contact support for password reset." ∧
    (AuthService.forgotPassword dbW "a@x.com" "tkn" 5 false).2 =
      (AuthService.forgotPassword dbW "a@x.com" "tkn" 5 true).2 ∧
    ∃ a', a' ∈ ((AuthService.forgotPassword dbW "a@x.com" "tkn" 5 false).2).kindColl "user" ∧
      a'.id = accW.id ∧ a'.resetPasswordToken = some "tkn" ∧
      a'.resetPasswordExpires = some (5 + 60 * 60 * 1000) ∧
      a'.password = accW.password :=
  forgot_password_persists_token_before_email dbW "a@x.com" "tkn" 5 accW "user" (by decide)

/-- Claim C7: both the email resolver used by login and forgot-password
and the id resolver used by bearer-token authentication probe the
regular-user collection first and the service-provider collection second:
when the key exists in both collections the regular account (tagged
`user`) is returned, and only when no regular account matches is the
service-provider collection consulted. -/
theorem resolver_probes_users_first (db db2 : DB) (e : String) (i : Nat)
    (u p v q : Account)
    (hu : u ∈ db.users) (hue : u.email = e)
    (_hp : p ∈ db.providers) (_hpe : p.email = e)
    (hv : v ∈ db.users) (hvi : v.id = i)
    (_hq : q ∈ db.providers) (_hqi : q.id = i)
    (h2e : db2.findUserByEmail e = none)
    (h2i : db2.findUserById i = none) :
    (∃ u', AuthService.resolveByEmail db e = some (u', "user") ∧
      u' ∈ db.users ∧ u'.email = e) ∧
    (∃ v', authMiddlewareResolve db ⟨i⟩ = .ok (v', "user") ∧
      v' ∈ db.users ∧ v'.id = i) ∧
    AuthService.resolveByEmail db2 e =
      (db2.findProviderByEmail e).map (fun x => (x, "serviceProvider")) ∧
    authMiddlewareResolve db2 ⟨i⟩ =
      (match db2.findProviderById i with
       | some x => .ok (x, "serviceProvider")
       | none => .error "Invalid token. User not found.") := by
  refine ⟨?_, ?_, ?_, ?_⟩
  · have h1 : (db.users.find? (fun a => a.email == e)).isSome :=
      List.find?_isSome.mpr ⟨u, hu, by simp [hue]⟩
    obtain ⟨u', hu'⟩ := Option.isSome_iff_exists.mp h1
    refine ⟨u', ?_, List.mem_of_find?_eq_some hu', ?_⟩
    · simp [AuthService.resolveByEmail, DB.findUserByEmail, hu']
    · simpa using List.find?_some hu'
  · have h1 : (db.users.find? (fun a => a.id == i)).isSome :=
      List.find?_isSome.mpr ⟨v, hv, by simp [hvi]⟩
    obtain ⟨v', hv'⟩ := Option.isSome_iff_exists.mp h1
    refine ⟨v', ?_, List.mem_of_find?_eq_some hv', ?_⟩
    · simp [authMiddlewareResolve, DB.findUserById, hv']
    · simpa using List.find?_some hv'
  · cases hp2 : db2.findProviderByEmail e <;>
      simp [AuthService.resolveByEmail, h2e, hp2]
  · cases hp2 : db2.findProviderById i <;>
      simp [authMiddlewareResolve, h2i, hp2]

theorem resolver_probes_users_first_witness :
    (∃ u', AuthService.resolveByEmail dbBoth "a@x.com" = some (u', "user") ∧
      u' ∈ dbBoth.users ∧ u'.email = "a@x.com") ∧
    (∃ v', authMiddlewareResolve dbBoth ⟨1⟩ = .ok (v', "user") ∧
      v' ∈ dbBoth.users ∧ v'.id = 1) ∧
    AuthService.resolveByEmail dbProvOnly "a@x.com" =
      (dbProvOnly.findProviderByEmail "a@x.com").map (fun x => (x, "serviceProvider")) ∧
    authMiddlewareResolve dbProvOnly ⟨1⟩ =
      (match dbProvOnly.findProviderById 1 with
       | some x => .ok (x, "serviceProvider")
       | none => .error "Invalid token. User not found.") :=
  resolver_probes_users_first dbBoth dbProvOnly "a@x.com" 1 accW provW accW provW
    (by decide) (by decide) (by decide) (by decide) (by decide) (by decide)
    (by decide) (by decide) (by decide) (by decide)

theorem registerUser_snd (db : DB) (d : RegisterData) (id salt now : Nat) (em : Bool)
    (h : db.findUserByEmail d.email = none) :
    (AuthService.registerUser db d id salt now em).2 =
      { db with users := db.users ++ [newUserDoc d id salt now] } := by
  simp [AuthService.registerUser, h]

theorem registerServiceProvider_snd (db : DB) (d : RegisterData) (id salt now : Nat)
    (em : Bool) (h : db.findProviderByEmail d.email = none) :
    (AuthService.registerServiceProvider db d id salt now em).2 =
      { db with providers := db.providers ++ [newProviderDoc d id salt now] } := by
  simp [AuthService.registerServiceProvider, h]

theorem findUserByEmail_append_self (db : DB) (a : Account) (e : String)
    (h : db.findUserByEmail e = none) (ha : a.email = e) :
    ({ db with users := db.users ++ [a] } : DB).findUserByEmail e = some a := by
  unfold DB.findUserByEmail at h ⊢
  rw [List.find?_append, h]
  simp [ha]

theorem findProviderByEmail_append_self (db : DB) (a : Account) (e : String)
    (h : db.findProviderByEmail e = none) (ha : a.email = e) :
    ({ db with providers := db.providers ++ [a] } : DB).findProviderByEmail e = some a := by
  unfold DB.findProviderByEmail at h ⊢
  rw [List.find?_append, h]
  simp [ha]

/-- Claim C4: registering an email twice within one variant succeeds the
first time and fails with the duplicate-account error (HTTP 400) the
second time, while the same email registers successfully as the other
variant's account, the duplicate check probing only the target variant's
own collection. -/
theorem duplicate_email_per_variant (db : DB) (d1 d2 q1 q2 : RegisterData) (e : String)
    (i1 i2 i3 i4 s1 s2 s3 s4 t1 t2 t3 t4 : Nat) (m1 m2 m3 m4 : Bool)
    (he1 : d1.email = e) (he2 : d2.email = e) (hf1 : q1.email = e) (hf2 : q2.email = e)
    (hu : db.findUserByEmail e = none) (hp : db.findProviderByEmail e = none) :
    (AuthService.registerUser db d1 i1 s1 t1 m1).1 =
      .ok ⟨"User registered successfully", i1⟩ ∧
    (AuthService.registerUser (AuthService.registerUser db d1 i1 s1 t1 m1).2
        d2 i2 s2 t2 m2).1 = .error "User with this email already exists" ∧
    (AuthController.registerUserHttp (AuthService.registerUser db d1 i1 s1 t1 m1).2
        d2 i2 s2 t2 m2).1 = (400, messageBody "User with this email already exists") ∧
    (AuthService.registerServiceProvider (AuthService.registerUser db d1 i1 s1 t1 m1).2
        q1 i3 s3 t3 m3).1 = .ok ⟨"Service provider registered successfully", i3⟩ ∧
    (AuthService.registerServiceProvider
        (AuthService.registerServiceProvider (AuthService.registerUser db d1 i1 s1 t1 m1).2
          q1 i3 s3 t3 m3).2 q2 i4 s4 t4 m4).1 =
      .error "Service provider with this email already exists" ∧
    (AuthController.registerServiceProviderHttp
        (AuthService.registerServiceProvider (AuthService.registerUser db d1 i1 s1 t1 m1).2
          q1 i3 s3 t3 m3).2 q2 i4 s4 t4 m4).1 =
      (400, messageBody "Service provider with this email already exists") := by
  have hu1 : db.findUserByEmail d1.email = none := by rw [he1]; exact hu
  have hdb1 := registerUser_snd db d1 i1 s1 t1 m1 hu1
  have hdup : ((AuthService.registerUser db d1 i1 s1 t1 m1).2).findUserByEmail d2.email
      = some (newUserDoc d1 i1 s1 t1) := by
    rw [hdb1, he2]
    exact findUserByEmail_append_self db _ e hu (by simp [newUserDoc, he1])
  have hprov1 : ((AuthService.registerUser db d1 i1 s1 t1 m1).2).findProviderByEmail q1.email
      = none := by
    rw [hdb1, hf1]
    exact hp
  have hdb2 := registerServiceProvider_snd _ q1 i3 s3 t3 m3 hprov1
  have hpdup : ((AuthService.registerServiceProvider
      (AuthService.registerUser db d1 i1 s1 t1 m1).2 q1 i3 s3 t3 m3).2).findProviderByEmail
        q2.email = some (newProviderDoc q1 i3 s3 t3) := by
    rw [hdb2, hf2]
    have : ((AuthService.registerUser db d1 i1 s1 t1 m1).2).findProviderByEmail e = none := by
      rw [hdb1]; exact hp
    exact findProviderByEmail_append_self _ _ e this
      (by simp [newProviderDoc, newUserDoc, hf1])
  have hinc : strIncludes "User with this email already exists" "already exists" = true := by
    decide
  have hinc2 : strIncludes "Service provider with this email already exists"
      "already exists" = true := by decide
  refine ⟨?_, ?_, ?_, ?_, ?_, ?_⟩
  · simp [AuthService.registerUser, hu1, newUserDoc]
  · generalize hX : (AuthService.registerUser db d1 i1 s1 t1 m1).2 = X at hdup ⊢
    simp [AuthService.registerUser, hdup]
  · generalize hX : (AuthService.registerUser db d1 i1 s1 t1 m1).2 = X at hdup ⊢
    simp [AuthController.registerUserHttp, AuthService.registerUser, hdup, hinc]
  · generalize hX : (AuthService.registerUser db d1 i1 s1 t1 m1).2 = X at hprov1 ⊢
    simp [AuthService.registerServiceProvider, hprov1, newProviderDoc, newUserDoc]
  · generalize hX : (AuthService.registerUser db d1 i1 s1 t1 m1).2 = X at hpdup ⊢
    generalize hY : (AuthService.registerServiceProvider X q1 i3 s3 t3 m3).2 = Y at hpdup ⊢
    simp [AuthService.registerServiceProvider, hpdup]
  · generalize hX : (AuthService.registerUser db d1 i1 s1 t1 m1).2 = X at hpdup ⊢
    generalize hY : (AuthService.registerServiceProvider X q1 i3 s3 t3 m3).2 = Y at hpdup ⊢
    simp [AuthController.registerServiceProviderHttp, AuthService.registerServiceProvider,
      hpdup, hinc2]

theorem duplicate_email_per_variant_witness :
    (AuthService.registerUser DB.empty regW 1 7 0 true).1 =
      .ok ⟨"User registered successfully", 1⟩ ∧
    (AuthService.registerUser (AuthService.registerUser DB.empty regW 1 7 0 true).2
        regW 2 8 1 true).1 = .error "User with this email already exists" ∧
    (AuthController.registerUserHttp (AuthService.registerUser DB.empty regW 1 7 0 true).2
        regW 2 8 1 true).1 = (400, messageBody "User with this email already exists") ∧
    (AuthService.registerServiceProvider (AuthService.registerUser DB.empty regW 1 7 0 true).2
        regW 3 9 2 true).1 = .ok ⟨"Service provider registered successfully", 3⟩ ∧
    (AuthService.registerServiceProvider
        (AuthService.registerServiceProvider (AuthService.registerUser DB.empty regW 1 7 0 true).2
          regW 3 9 2 true).2 regW 4 10 3 true).1 =
      .error "Service provider with this email already exists" ∧
    (AuthController.registerServiceProviderHttp
        (AuthService.registerServiceProvider (AuthService.registerUser DB.empty regW 1 7 0 true).2
          regW 3 9 2 true).2 regW 4 10 3 true).1 =
      (400, messageBody "Service provider with this email already exists") :=
  duplicate_email_per_variant DB.empty regW regW regW regW "b@x.com"
    1 2 3 4 7 8 9 10 0 1 2 3 true true true true
    rfl rfl rfl rfl (by decide) (by decide)

/-- The update payload that touches only `firstName`. -/
def onlyFirstNameUpdate (n : String) : UpdateData :=
  ⟨some n, Option.none, Option.none, Option.none, Option.none, Option.none, Option.none,
    Option.none, Option.none, Option.none⟩

/-- Claim C9: a profile update whose payload contains only `firstName`
leaves the stored password hash unchanged byte-for-byte, and every other
field except `firstName` and the `updatedAt` timestamp unchanged, for
both variants; the persisted document is exactly that update. -/
theorem update_only_firstName_frame (db db2 : DB) (uid pid : Nat) (au ap : Account)
    (n : String) (now now2 : Nat)
    (hu : db.findUserById uid = some au)
    (hp : db2.findProviderById pid = some ap) :
    (UserService.updateUser db uid (onlyFirstNameUpdate n) now).1 =
      .ok { au with firstName := n, updatedAt := now } ∧
    (UserService.updateUser db uid (onlyFirstNameUpdate n) now).2 =
      db.saveUser { au with firstName := n, updatedAt := now } ∧
    ({ au with firstName := n, updatedAt := now } : Account).password = au.password ∧
    (ServiceProviderService.updateServiceProvider db2 pid (onlyFirstNameUpdate n) now2).1 =
      .ok { ap with firstName := n, updatedAt := now2 } ∧
    (ServiceProviderService.updateServiceProvider db2 pid (onlyFirstNameUpdate n) now2).2 =
      db2.saveProvider { ap with firstName := n, updatedAt := now2 } ∧
    ({ ap with firstName := n, updatedAt := now2 } : Account).password = ap.password := by
  refine ⟨?_, ?_, rfl, ?_, ?_, rfl⟩ <;>
    simp [UserService.updateUser, ServiceProviderService.updateServiceProvider, hu, hp,
      applySetUser, applySetProvider, onlyFirstNameUpdate]

theorem update_only_firstName_frame_witness :
    (UserService.updateUser dbW 1 (onlyFirstNameUpdate "Zo") 77).1 =
      .ok { accW with firstName := "Zo", updatedAt := 77 } ∧
    (UserService.updateUser dbW 1 (onlyFirstNameUpdate "Zo") 77).2 =
      dbW.saveUser { accW with firstName := "Zo", updatedAt := 77 } ∧
    ({ accW with firstName := "Zo", updatedAt := 77 } : Account).password = accW.password ∧
    (ServiceProviderService.updateServiceProvider dbProvOnly 1
        (onlyFirstNameUpdate "Zo") 78).1 =
      .ok { provW with firstName := "Zo", updatedAt := 78 } ∧
    (ServiceProviderService.updateServiceProvider dbProvOnly 1
        (onlyFirstNameUpdate "Zo") 78).2 =
      dbProvOnly.saveProvider { provW with firstName := "Zo", updatedAt := 78 } ∧
    ({ provW with firstName := "Zo", updatedAt := 78 } : Account).password = provW.password :=
  update_only_firstName_frame dbW dbProvOnly 1 1 accW provW "Zo" 77 78 (by decide) (by decide)

/-- A sample user document carrying a stored reset token and expiry. -/
def accR : Account :=
  { accW with resetPasswordToken := some "tok", resetPasswordExpires := some 100 }

/-- A store holding the sample user with a pending reset token. -/
def dbR : DB := ⟨[accR], []⟩

/-- The update payload `{ password: "plain123" }`: a body the validation
middleware passes through unchanged. -/
def plainPwUpdate : UpdateData :=
  ⟨Option.none, Option.none, Option.none, Option.none, Option.none, Option.none,
    Option.none, some "plain123", Option.none, Option.none⟩

/-- Counterexample to claim C3 as stated: a profile update whose body
carries a `password` key goes through `findByIdAndUpdate({ $set })`,
which bypasses the `pre('save')` hash hook, so the submitted plaintext
`plain123` is persisted verbatim as the stored password. -/
theorem update_password_stored_plaintext_counterexample :
    (UserService.updateUser dbW 1 plainPwUpdate 5).1 =
      .ok { accW with password := .plain "plain123", updatedAt := 5 } ∧
    ∃ x ∈ (UserService.updateUser dbW 1 plainPwUpdate 5).2.users,
      x.password = StoredPassword.plain "plain123" :=
  ⟨rfl, by decide⟩

/-- Claim C3 (amended): the stored password field is never the submitted
plaintext for every persisting operation except a profile update whose
body itself carries a `password` key.  Registration and password reset
persist a bcrypt hash of the plaintext (whose verification against the
plaintext succeeds), the forgot-password save leaves the stored hash
untouched (the field was not modified, so the pre-save hook does not
re-hash), and a profile update whose payload contains no `password`
field leaves the stored hash unchanged.  (An update payload with a
`password` key persists it verbatim, unhashed, since
`findByIdAndUpdate` bypasses the pre-save hook — see the
counterexample.) -/
theorem passwords_hashed_at_rest (dbA dbB dbC dbD : DB) (d : RegisterData)
    (id salt now : Nat) (em : Bool)
    (tok newPw kind : String) (salt2 now2 : Nat) (a0 : Account)
    (e tok2 : String) (now3 : Nat) (a : Account) (k : String)
    (uid : Nat) (au : Account) (u : UpdateData) (now4 : Nat)
    (_hval : 6 ≤ d.password.length)
    (hu : dbA.findUserByEmail d.email = none)
    (hpv : dbA.findProviderByEmail d.email = none)
    (hres : (dbB.kindColl kind).find? (AuthService.resetQueryMatch tok now2) = some a0)
    (_ha : AuthService.resolveByEmail dbC e = some (a, k))
    (_hup : dbD.findUserById uid = some au)
    (hnopw : u.password = none) :
    (AuthService.registerUser dbA d id salt now em).2.users =
      dbA.users ++ [newUserDoc d id salt now] ∧
    (newUserDoc d id salt now).password = Bcrypt.hash salt d.password ∧
    (∀ pw', (newUserDoc d id salt now).password ≠ .plain pw') ∧
    Bcrypt.compare d.password (newUserDoc d id salt now).password = true ∧
    (AuthService.registerServiceProvider dbA d id salt now em).2.providers =
      dbA.providers ++ [newProviderDoc d id salt now] ∧
    (newProviderDoc d id salt now).password = Bcrypt.hash salt d.password ∧
    (∀ pw', (newProviderDoc d id salt now).password ≠ .plain pw') ∧
    Bcrypt.compare d.password (newProviderDoc d id salt now).password = true ∧
    (AuthService.resetPassword dbB tok newPw kind salt2 now2).2 =
      dbB.kindSave kind (AuthService.resetDoc a0 newPw salt2 now2) ∧
    (AuthService.resetDoc a0 newPw salt2 now2).password = Bcrypt.hash salt2 newPw ∧
    (∀ pw', (AuthService.resetDoc a0 newPw salt2 now2).password ≠ .plain pw') ∧
    Bcrypt.compare newPw (AuthService.resetDoc a0 newPw salt2 now2).password = true ∧
    (AuthService.forgotDoc a tok2 now3).password = a.password ∧
    (applySetUser au u now4).password = au.password ∧
    (applySetProvider au u now4).password = au.password := by
  refine ⟨?_, rfl, ?_, ?_, ?_, rfl, ?_, ?_, ?_, rfl, ?_, ?_, rfl, ?_, ?_⟩
  · rw [registerUser_snd dbA d id salt now em hu]
  · intro pw'
    simp [newUserDoc, preSaveHashPassword, Bcrypt.hash]
  · simp [newUserDoc, preSaveHashPassword, Bcrypt.hash, Bcrypt.compare, Bcrypt.storedText]
  · rw [registerServiceProvider_snd dbA d id salt now em hpv]
  · intro pw'
    simp [newProviderDoc, newUserDoc, preSaveHashPassword, Bcrypt.hash]
  · simp [newProviderDoc, newUserDoc, preSaveHashPassword, Bcrypt.hash, Bcrypt.compare,
      Bcrypt.storedText]
  · simp [AuthService.resetPassword, hres]
  · intro pw'
    simp [AuthService.resetDoc, preSaveHashPassword, Bcrypt.hash]
  · simp [AuthService.resetDoc, preSaveHashPassword, Bcrypt.hash, Bcrypt.compare,
      Bcrypt.storedText]
  · simp [applySetUser, hnopw]
  · simp [applySetProvider, hnopw]

theorem passwords_hashed_at_rest_witness :
    (AuthService.registerUser dbW regW 2 9 50 true).2.users =
      dbW.users ++ [newUserDoc regW 2 9 50] ∧
    (newUserDoc regW 2 9 50).password = Bcrypt.hash 9 regW.password ∧
    (∀ pw', (newUserDoc regW 2 9 50).password ≠ .plain pw') ∧
    Bcrypt.compare regW.password (newUserDoc regW 2 9 50).password = true ∧
    (AuthService.registerServiceProvider dbW regW 2 9 50 true).2.providers =
      dbW.providers ++ [newProviderDoc regW 2 9 50] ∧
    (newProviderDoc regW 2 9 50).password = Bcrypt.hash 9 regW.password ∧
    (∀ pw', (newProviderDoc regW 2 9 50).password ≠ .plain pw') ∧
    Bcrypt.compare regW.password (newProviderDoc regW 2 9 50).password = true ∧
    (AuthService.resetPassword dbR "tok" "secret2" "user" 11 50).2 =
      dbR.kindSave "user" (AuthService.resetDoc accR "secret2" 11 50) ∧
    (AuthService.resetDoc accR "secret2" 11 50).password = Bcrypt.hash 11 "secret2" ∧
    (∀ pw', (AuthService.resetDoc accR "secret2" 11 50).password ≠ .plain pw') ∧
    Bcrypt.compare "secret2" (AuthService.resetDoc accR "secret2" 11 50).password = true ∧
    (AuthService.forgotDoc accW "tkn" 5).password = accW.password ∧
    (applySetUser accW (onlyFirstNameUpdate "Zo") 77).password = accW.password ∧
    (applySetProvider accW (onlyFirstNameUpdate "Zo") 77).password = accW.password :=
  passwords_hashed_at_rest dbW dbR dbW dbW regW 2 9 50 true "tok" "secret2" "user" 11 50 accR
    "a@x.com" "tkn" 5 accW "user" 1 accW (onlyFirstNameUpdate "Zo") 77
    (by decide) (by decide) (by decide) (by decide) (by decide) (by decide) (by decide)

theorem paired_saveUser_db (db : DB) (x : Account)
    (h : dbResetFieldsPaired db) (hx : resetFieldsPaired x) :
    dbResetFieldsPaired (db.saveUser x) := by
  refine ⟨?_, h.2⟩
  intro a ha
  simp only [DB.saveUser] at ha
  obtain ⟨y, hy, rfl⟩ := List.mem_map.mp ha
  split
  · exact hx
  · exact h.1 y hy

theorem paired_saveProvider_db (db : DB) (x : Account)
    (h : dbResetFieldsPaired db) (hx : resetFieldsPaired x) :
    dbResetFieldsPaired (db.saveProvider x) := by
  refine ⟨h.1, ?_⟩
  intro a ha
  simp only [DB.saveProvider] at ha
  obtain ⟨y, hy, rfl⟩ := List.mem_map.mp ha
  split
  · exact hx
  · exact h.2 y hy

theorem paired_kindSave_db (db : DB) (k : String) (x : Account)
    (h : dbResetFieldsPaired db) (hx : resetFieldsPaired x) :
    dbResetFieldsPaired (db.kindSave k x) := by
  unfold DB.kindSave
  split
  · exact paired_saveProvider_db db x h hx
  · exact paired_saveUser_db db x h hx

/-- A registration body carrying neither reset-token schema path: the
documented registration payload. -/
def RegisterData.noResetKeys (d : RegisterData) : Prop :=
  d.resetPasswordToken = none ∧ d.resetPasswordExpires = none

/-- An update body carrying neither reset-token schema path: the
documented update payload. -/
def UpdateData.noResetKeys (u : UpdateData) : Prop :=
  u.resetPasswordToken = Option.none ∧ u.resetPasswordExpires = Option.none

/-- One store-changing API operation whose registration and update
bodies carry no reset-token keys (the documented payloads);
forgot-password, reset-password and the deletes are unrestricted. -/
inductive DBStepDocumented : DB → DB → Prop where
  | regUser (db : DB) (d : RegisterData) (id salt now : Nat) (em : Bool)
      (hd : d.noResetKeys) :
      DBStepDocumented db (AuthService.registerUser db d id salt now em).2
  | regProvider (db : DB) (d : RegisterData) (id salt now : Nat) (em : Bool)
      (hd : d.noResetKeys) :
      DBStepDocumented db (AuthService.registerServiceProvider db d id salt now em).2
  | forgot (db : DB) (email tok : String) (now : Nat) (em : Bool) :
      DBStepDocumented db (AuthService.forgotPassword db email tok now em).2
  | reset (db : DB) (tok pw kind : String) (salt now : Nat) :
      DBStepDocumented db (AuthService.resetPassword db tok pw kind salt now).2
  | updUser (db : DB) (id : Nat) (u : UpdateData) (now : Nat) (hu : u.noResetKeys) :
      DBStepDocumented db (UserService.updateUser db id u now).2
  | updProvider (db : DB) (id : Nat) (u : UpdateData) (now : Nat) (hu : u.noResetKeys) :
      DBStepDocumented db (ServiceProviderService.updateServiceProvider db id u now).2
  | delUser (db : DB) (id : Nat) :
      DBStepDocumented db (UserService.deleteUser db id).2
  | delProvider (db : DB) (id : Nat) :
      DBStepDocumented db (ServiceProviderService.deleteServiceProvider db id).2

/-- A store state reachable from the empty store by operations with
documented payloads. -/
def DBReachableDocumented (db : DB) : Prop :=
  Relation.ReflTransGen DBStepDocumented DB.empty db

/-- Every store-changing API operation with a documented payload
preserves the reset-token pairing invariant: registration creates
documents with both fields unset, forgot-password sets both together, a
successful reset clears both together, updates and deletes touch
neither. -/
theorem dbStepDocumented_preserves_paired (db db' : DB) (h : DBStepDocumented db db')
    (hdb : dbResetFieldsPaired db) : dbResetFieldsPaired db' := by
  cases h with
  | regUser d id salt now em hd =>
      cases hf : db.findUserByEmail d.email with
      | some u => simpa [AuthService.registerUser, hf] using hdb
      | none =>
          simp only [AuthService.registerUser, hf]
          refine ⟨?_, hdb.2⟩
          intro a ha
          rcases List.mem_append.mp ha with hL | hR
          · exact hdb.1 a hL
          · have : a = newUserDoc d id salt now := by simpa using hR
            subst this
            simp [resetFieldsPaired, newUserDoc, hd.1, hd.2]
  | regProvider d id salt now em hd =>
      cases hf : db.findProviderByEmail d.email with
      | some u => simpa [AuthService.registerServiceProvider, hf] using hdb
      | none =>
          simp only [AuthService.registerServiceProvider, hf]
          refine ⟨hdb.1, ?_⟩
          intro a ha
          rcases List.mem_append.mp ha with hL | hR
          · exact hdb.2 a hL
          · have : a = newProviderDoc d id salt now := by simpa using hR
            subst this
            simp [resetFieldsPaired, newProviderDoc, newUserDoc, hd.1, hd.2]
  | forgot email tok now em =>
      cases hf : AuthService.resolveByEmail db email with
      | none => simpa [AuthService.forgotPassword, hf] using hdb
      | some uk =>
          obtain ⟨u, k⟩ := uk
          have hsnd : (AuthService.forgotPassword db email tok now em).2 =
              db.kindSave k (AuthService.forgotDoc u tok now) := by
            cases em <;>
              simp [AuthService.forgotPassword, hf, EmailService.sendForgotPasswordEmail,
                EmailService.sendEmail]
          rw [hsnd]
          exact paired_kindSave_db db k _ hdb (by simp [resetFieldsPaired, AuthService.forgotDoc])
  | reset tok pw kind salt now =>
      cases hf : (db.kindColl kind).find? (AuthService.resetQueryMatch tok now) with
      | none => simpa [AuthService.resetPassword, hf] using hdb
      | some u =>
          have hsnd : (AuthService.resetPassword db tok pw kind salt now).2 =
              db.kindSave kind (AuthService.resetDoc u pw salt now) := by
            simp [AuthService.resetPassword, hf]
          rw [hsnd]
          exact paired_kindSave_db db kind _ hdb
            (by simp [resetFieldsPaired, AuthService.resetDoc])
  | updUser id u now hnr =>
      cases hf : db.findUserById id with
      | none => simpa [UserService.updateUser, hf] using hdb
      | some a =>
          have hsnd : (UserService.updateUser db id u now).2 =
              db.saveUser (applySetUser a u now) := by
            simp [UserService.updateUser, hf]
          rw [hsnd]
          refine paired_saveUser_db db _ hdb ?_
          have hpa := hdb.1 a (List.mem_of_find?_eq_some hf)
          simpa [resetFieldsPaired, applySetUser, hnr.1, hnr.2] using hpa
  | updProvider id u now hnr =>
      cases hf : db.findProviderById id with
      | none => simpa [ServiceProviderService.updateServiceProvider, hf] using hdb
      | some a =>
          have hsnd : (ServiceProviderService.updateServiceProvider db id u now).2 =
              db.saveProvider (applySetProvider a u now) := by
            simp [ServiceProviderService.updateServiceProvider, hf]
          rw [hsnd]
          refine paired_saveProvider_db db _ hdb ?_
          have hpa := hdb.2 a (List.mem_of_find?_eq_some hf)
          simpa [resetFieldsPaired, applySetProvider, hnr.1, hnr.2] using hpa
  | delUser id =>
      cases hf : db.findUserById id with
      | none => simpa [UserService.deleteUser, hf] using hdb
      | some a =>
          simp only [UserService.deleteUser, hf]
          refine ⟨?_, hdb.2⟩
          intro x hx
          exact hdb.1 x (List.mem_of_mem_filter hx)
  | delProvider id =>
      cases hf : db.findProviderById id with
      | none => simpa [ServiceProviderService.deleteServiceProvider, hf] using hdb
      | some a =>
          simp only [ServiceProviderService.deleteServiceProvider, hf]
          refine ⟨hdb.1, ?_⟩
          intro x hx
          exact hdb.2 x (List.mem_of_mem_filter hx)

/-- The update payload `{ resetPasswordToken: "x" }`: a body the
validation middleware passes through unchanged. -/
def tokenOnlyUpdate : UpdateData :=
  ⟨Option.none, Option.none, Option.none, Option.none, Option.none, Option.none,
    Option.none, Option.none, some "x", Option.none⟩

/-- A store reached from the empty store by a registration followed by a
profile update whose body carries only `resetPasswordToken`. -/
def dbUnpaired : DB :=
  (UserService.updateUser (AuthService.registerUser DB.empty regW 1 7 0 true).2
    1 tokenOnlyUpdate 5).2

/-- Counterexample to claim C5 as stated: a profile update whose body
carries `resetPasswordToken` alone — a schema path the validation
middleware passes through into `$set` — reaches a store whose account
has a reset token but no expiry, so the two fields are not always both
set or both unset. -/
theorem reset_fields_pairing_counterexample :
    DBReachable dbUnpaired ∧ ¬ dbResetFieldsPaired dbUnpaired :=
  ⟨Relation.ReflTransGen.tail
      (Relation.ReflTransGen.tail Relation.ReflTransGen.refl
        (DBStep.regUser DB.empty regW 1 7 0 true))
      (DBStep.updUser _ 1 tokenOnlyUpdate 5),
    by decide⟩

/-- Claim C5 (amended): in every store state reachable from the empty
store by API operations whose registration and update bodies carry no
reset-token keys (the documented payloads), every account of either
collection has `resetPasswordToken` and `resetPasswordExpires` either
both unset or both set: registration leaves both unset, ForgotPassword
sets both together, a successful ResetPassword clears both together, and
no other documented operation touches either.  (A registration or
update body that itself carries one of these schema paths can set one
field without the other, since validation never strips unknown keys —
see the counterexample.) -/
theorem reset_fields_paired_documented (db : DB) (h : DBReachableDocumented db) :
    dbResetFieldsPaired db := by
  induction h with
  | refl => exact ⟨by simp [DB.empty], by simp [DB.empty]⟩
  | tail hsteps hstep ih => exact dbStepDocumented_preserves_paired _ _ hstep ih

theorem reset_fields_paired_documented_witness :
    dbResetFieldsPaired
      (AuthService.forgotPassword
        (AuthService.registerUser DB.empty regW 1 7 0 true).2 "b@x.com" "tkn" 5 true).2 :=
  reset_fields_paired_documented _
    (Relation.ReflTransGen.tail
      (Relation.ReflTransGen.tail Relation.ReflTransGen.refl
        (DBStepDocumented.regUser DB.empty regW 1 7 0 true ⟨rfl, rfl⟩))
      (DBStepDocumented.forgot _ "b@x.com" "tkn" 5 true))

/-- Claim C1: a reset token stored by ForgotPassword (with expiry one
hour after issuance) makes ResetPassword with that token and the
account's kind succeed while `now` is before the expiry; after the expiry
ResetPassword fails with the invalid-or-expired error; and once a reset
has succeeded both reset fields are cleared, so reusing the same token
fails with the same error.  The token is assumed fresh (held by no stored
account), as guaranteed by its high-entropy generation. -/
theorem reset_token_lifecycle (db : DB) (e tok newPw1 newPw2 : String)
    (t0 t1 t2 t3 s1 s2 : Nat) (em : Bool) (a : Account) (k : String)
    (ha : AuthService.resolveByEmail db e = some (a, k))
    (hfu : ∀ x ∈ db.users, x.resetPasswordToken ≠ some tok)
    (hfp : ∀ x ∈ db.providers, x.resetPasswordToken ≠ some tok)
    (h1 : t1 < t0 + 60 * 60 * 1000)
    (h3 : t0 + 60 * 60 * 1000 ≤ t3) :
    (AuthService.forgotDoc a tok t0).resetPasswordExpires = some (t0 + 60 * 60 * 1000) ∧
    AuthService.forgotDoc a tok t0 ∈
      ((AuthService.forgotPassword db e tok t0 em).2).kindColl k ∧
    (AuthService.resetPassword (AuthService.forgotPassword db e tok t0 em).2
        tok newPw1 k s1 t1).1 = .ok "Password reset successfully" ∧
    (AuthService.resetPassword (AuthService.forgotPassword db e tok t0 em).2
        tok newPw1 k s1 t3).1 = .error "Invalid or expired reset token" ∧
    (AuthService.resetPassword
        (AuthService.resetPassword (AuthService.forgotPassword db e tok t0 em).2
          tok newPw1 k s1 t1).2 tok newPw2 k s2 t2).1 =
      .error "Invalid or expired reset token" := by
  obtain ⟨hmem, -, -⟩ := resolveByEmail_mem db e a k ha
  have hfreshColl : ∀ x ∈ db.kindColl k, x.resetPasswordToken ≠ some tok := by
    unfold DB.kindColl
    split
    · exact hfp
    · exact hfu
  set fd := AuthService.forgotDoc a tok t0 with hfd
  have hsnd : (AuthService.forgotPassword db e tok t0 em).2 = db.kindSave k fd := by
    cases em <;>
      simp [AuthService.forgotPassword, ha, EmailService.sendForgotPasswordEmail,
        EmailService.sendEmail, hfd]
  have hcoll : ((AuthService.forgotPassword db e tok t0 em).2).kindColl k =
      (db.kindColl k).map (fun y => if y.id == fd.id then fd else y) := by
    rw [hsnd, kindColl_kindSave]
  have hmemfd : fd ∈ ((AuthService.forgotPassword db e tok t0 em).2).kindColl k := by
    rw [hcoll]
    have hm := List.mem_map_of_mem (fun y => if y.id == fd.id then fd else y) hmem
    simpa [hfd, AuthService.forgotDoc] using hm
  have hmemchar : ∀ x ∈ ((AuthService.forgotPassword db e tok t0 em).2).kindColl k,
      x = fd ∨ (x ∈ db.kindColl k ∧ x.resetPasswordToken ≠ some tok) := by
    intro x hx
    rw [hcoll] at hx
    obtain ⟨y, hy, hyx⟩ := List.mem_map.mp hx
    by_cases hid : (y.id == fd.id) = true
    · left
      rw [← hyx]
      simp [hid]
    · right
      have hxy : x = y := by
        rw [← hyx]
        simp [hid]
      rw [hxy]
      exact ⟨hy, hfreshColl y hy⟩
  have hqfd : AuthService.resetQueryMatch tok t1 fd = true := by
    simp [AuthService.resetQueryMatch, hfd, AuthService.forgotDoc, h1]
  have hsome : ((((AuthService.forgotPassword db e tok t0 em).2).kindColl k).find?
      (AuthService.resetQueryMatch tok t1)).isSome :=
    List.find?_isSome.mpr ⟨fd, hmemfd, hqfd⟩
  obtain ⟨u0, hu0⟩ := Option.isSome_iff_exists.mp hsome
  have hu0tok : u0.resetPasswordToken = some tok := by
    have h2 := List.find?_some hu0
    unfold AuthService.resetQueryMatch at h2
    simp only [Bool.and_eq_true, beq_iff_eq] at h2
    exact h2.1
  have hu0fd : u0 = fd := by
    rcases hmemchar u0 (List.mem_of_find?_eq_some hu0) with h | ⟨-, hne⟩
    · exact h
    · exact absurd hu0tok hne
  have hsnd2 : (AuthService.resetPassword (AuthService.forgotPassword db e tok t0 em).2
      tok newPw1 k s1 t1).2 =
      ((AuthService.forgotPassword db e tok t0 em).2).kindSave k
        (AuthService.resetDoc fd newPw1 s1 t1) := by
    simp [AuthService.resetPassword, hu0, hu0fd]
  have hnone3 : ((((AuthService.forgotPassword db e tok t0 em).2).kindColl k).find?
      (AuthService.resetQueryMatch tok t3)) = none := by
    rw [List.find?_eq_none]
    intro x hx
    rcases hmemchar x hx with rfl | ⟨-, hne⟩
    · simp [AuthService.resetQueryMatch, hfd, AuthService.forgotDoc, Nat.not_lt.mpr h3]
    · simp [AuthService.resetQueryMatch, hne]
  set rd := AuthService.resetDoc fd newPw1 s1 t1 with hrd
  have hcoll2 : ((AuthService.resetPassword (AuthService.forgotPassword db e tok t0 em).2
      tok newPw1 k s1 t1).2).kindColl k =
      (((AuthService.forgotPassword db e tok t0 em).2).kindColl k).map
        (fun y => if y.id == rd.id then rd else y) := by
    rw [hsnd2, kindColl_kindSave]
  have hnone2 : ((((AuthService.resetPassword (AuthService.forgotPassword db e tok t0 em).2
      tok newPw1 k s1 t1).2).kindColl k).find? (AuthService.resetQueryMatch tok t2)) = none := by
    rw [hcoll2, List.find?_eq_none]
    intro x hx
    obtain ⟨y, hy, hyx⟩ := List.mem_map.mp hx
    rcases hmemchar y hy with rfl | ⟨-, hne⟩
    · have hxrd : x = rd := by
        rw [← hyx]
        simp [hrd, AuthService.resetDoc]
      rw [hxrd, hrd]
      simp [AuthService.resetQueryMatch, AuthService.resetDoc]
    · by_cases hid : (y.id == rd.id) = true
      · have hxrd : x = rd := by
          rw [← hyx]
          simp [hid]
        rw [hxrd, hrd]
        simp [AuthService.resetQueryMatch, AuthService.resetDoc]
      · have hxy : x = y := by
          rw [← hyx]
          simp [hid]
        rw [hxy]
        simp [AuthService.resetQueryMatch, hne]
  refine ⟨rfl, hmemfd, ?_, ?_, ?_⟩
  · simp [AuthService.resetPassword, hu0]
  · simp [AuthService.resetPassword, hnone3]
  · generalize hg : (AuthService.resetPassword (AuthService.forgotPassword db e tok t0 em).2
      tok newPw1 k s1 t1).2 = Y at hnone2 ⊢
    simp [AuthService.resetPassword, hnone2]

theorem reset_token_lifecycle_witness :
    (AuthService.forgotDoc accW "t1" 0).resetPasswordExpires = some (0 + 60 * 60 * 1000) ∧
    AuthService.forgotDoc accW "t1" 0 ∈
      ((AuthService.forgotPassword dbW "a@x.com" "t1" 0 true).2).kindColl "user" ∧
    (AuthService.resetPassword (AuthService.forgotPassword dbW "a@x.com" "t1" 0 true).2
        "t1" "secret2" "user" 8 10).1 = .ok "Password reset successfully" ∧
    (AuthService.resetPassword (AuthService.forgotPassword dbW "a@x.com" "t1" 0 true).2
        "t1" "secret2" "user" 8 3600000).1 = .error "Invalid or expired reset token" ∧
    (AuthService.resetPassword
        (AuthService.resetPassword (AuthService.forgotPassword dbW "a@x.com" "t1" 0 true).2
          "t1" "secret2" "user" 8 10).2 "t1" "secret3" "user" 9 20).1 =
      .error "Invalid or expired reset token" :=
  reset_token_lifecycle dbW "a@x.com" "t1" "secret2" "secret3" 0 10 20 3600000 8 9 true
    accW "user" (by decide) (by decide) (by decide) (by decide) (by decide)
